import Mathlib

/-!
Verification of the proxmox-pvenom observability client (src/main.rs,
src/client.rs, src/commands.rs, src/models.rs) against its natural-language
specification.

The Rust code is shallowly embedded: the HTTP layer is abstracted as oracles
(a response value, or a record of client-call outcomes), JSON bodies are an
inductive `Json` value mirroring serde_json's `Value`, fallible calls return
`Except String`, and machine integers are `Nat` with explicit wrap-around
(`% 2^32`) where the source casts.  Rendering code (commands.rs) is embedded
as pure functions from the decoded models to strings / cell rows.
-/

namespace Pvenom

/-- Foreground colors used by commands.rs table cells (comfy_table `Color`). -/
inductive Color where
  | cyan
  | green
  | red
  | yellow
  | blue
  | magenta
deriving DecidableEq, Repr

/-- A rendered table cell: its text and optional foreground color
(`Cell::new(text)` possibly followed by `.fg(color)` in commands.rs). -/
structure Cell where
  text : String
  color : Option Color := none
deriving DecidableEq, Repr

/-- `Cell::new(s)` with no color. -/
def plainCell (s : String) : Cell := { text := s, color := none }

/-- Rust `str::starts_with(pre)`: byte-wise prefix test.  For valid UTF-8
strings and a fixed valid pattern, the byte-level test coincides with the
character-level prefix test, modelled here structurally on the character
list. -/
def strStartsWith (s pre : String) : Bool := pre.data.isPrefixOf s.data

/-- models.rs `Node`.  `cpu` is an `Option<f64>` in the source; its numeric
value is modelled as a rational (no claim depends on f64 rounding of this
field).  `mem`/`maxmem`/`disk`/`maxdisk`/`uptime` are `Option<u64>`,
`maxcpu` is `Option<u32>`; all modelled as `Option Nat`. -/
structure Node where
  node : String
  status : String
  ip : Option String := none
  cpu : Option Rat := none
  maxcpu : Option Nat := none
  mem : Option Nat := none
  maxmem : Option Nat := none
  disk : Option Nat := none
  maxdisk : Option Nat := none
  uptime : Option Nat := none
deriving DecidableEq, Repr

/-- models.rs `VM`. -/
structure VM where
  vmid : Nat
  name : String
  status : String := ""
  ip : Option String := none
  cpus : Option Nat := none
  maxmem : Option Nat := none
  maxdisk : Option Nat := none
  uptime : Option Nat := none
deriving DecidableEq, Repr

/-- models.rs `LXC`. -/
structure LXC where
  vmid : Nat
  name : String
  status : String := ""
  ip : Option String := none
  cpus : Option Nat := none
  maxmem : Option Nat := none
  maxdisk : Option Nat := none
  uptime : Option Nat := none
deriving DecidableEq, Repr

/-- models.rs `Guest`: tagged union of a VM and a container. -/
inductive Guest where
  | VM (vm : VM)
  | LXC (lxc : LXC)
deriving DecidableEq, Repr

/-- models.rs `Guest::vmid`. -/
def Guest.vmid : Guest → Nat
  | .VM vm => vm.vmid
  | .LXC lxc => lxc.vmid

/-- models.rs `Guest::name`. -/
def Guest.name : Guest → String
  | .VM vm => vm.name
  | .LXC lxc => lxc.name

/-- models.rs `Guest::status`. -/
def Guest.status : Guest → String
  | .VM vm => vm.status
  | .LXC lxc => lxc.status

/-- models.rs `Guest::guest_type`. -/
def Guest.guestType : Guest → String
  | .VM _ => "VM"
  | .LXC _ => "LXC"

/-- Shared accessor for the guest address; commands.rs matches on the variant
inline (`match guest { Guest::VM(vm) => vm.ip..., Guest::LXC(lxc) => lxc.ip... }`)
at every use site, always with this body. -/
def Guest.ip : Guest → Option String
  | .VM vm => vm.ip
  | .LXC lxc => lxc.ip

/-- Shared accessor for the guest CPU count (same inline match in the source). -/
def Guest.cpus : Guest → Option Nat
  | .VM vm => vm.cpus
  | .LXC lxc => lxc.cpus

/-- Shared accessor for the guest memory ceiling (same inline match). -/
def Guest.maxmem : Guest → Option Nat
  | .VM vm => vm.maxmem
  | .LXC lxc => lxc.maxmem

/-- Shared accessor for the guest storage ceiling (same inline match). -/
def Guest.maxdisk : Guest → Option Nat
  | .VM vm => vm.maxdisk
  | .LXC lxc => lxc.maxdisk

/-! ## JSON model (serde_json::Value) -/

/-- serde_json `Value`.  Integer-backed and float-backed numbers are kept
apart, as serde_json does; a float's value is modelled as a rational. -/
inductive Json where
  | null
  | bool (b : Bool)
  | numInt (n : Int)
  | numFloat (q : Rat)
  | str (s : String)
  | arr (elems : List Json)
  | obj (fields : List (String × Json))

/-- `value[key]` on a serde_json value: field of an object, `Null` when the
key is missing or the value is not an object. -/
def Json.get (j : Json) (key : String) : Json :=
  match j with
  | .obj fields =>
    match fields.find? (fun kv => kv.1 == key) with
    | some kv => kv.2
    | none => .null
  | _ => .null

/-- `Value::as_array`. -/
def Json.asArray : Json → Option (List Json)
  | .arr l => some l
  | _ => none

/-- `Value::as_str`. -/
def Json.asStr : Json → Option String
  | .str s => some s
  | _ => none

/-- `Value::as_u64`: some iff the number is integer-backed, non-negative and
fits in 64 bits. -/
def Json.asU64 : Json → Option Nat
  | .numInt n => if 0 ≤ n ∧ n < 2 ^ 64 then some n.toNat else none
  | _ => none

/-- `Value::as_f64`.  The exact numeric value is returned; the f64 rounding
serde applies to large integers is not modelled (no claim depends on it). -/
def Json.asF64 : Json → Option Rat
  | .numInt n => some (n : Rat)
  | .numFloat q => some q
  | _ => none

/-! ## client.rs -/

/-- client.rs `get_node_status` (lines 147-169): the response body never
supplies the identifier (the caller's `node` argument is used), the status is
hard-coded `"online"`, `ip` starts out `None`, and the numeric fields are
read from the nested status body.  `as u32` on the core count wraps
modulo `2^32`. -/
def getNodeStatus (resp : Json) (node : String) : Node :=
  let data := resp.get "data"
  { node := node
    status := "online"
    ip := none
    cpu := (data.get "cpu").asF64
    maxcpu := (((data.get "cpuinfo").get "cpus").asU64).map (fun v => v % 2 ^ 32)
    mem := ((data.get "memory").get "used").asU64
    maxmem := ((data.get "memory").get "total").asU64
    disk := ((data.get "rootfs").get "used").asU64
    maxdisk := ((data.get "rootfs").get "total").asU64
    uptime := (data.get "uptime").asU64 }

/-- The interface loop in client.rs `get_node_ip` (lines 177-187): first
interface whose `address` is a string that is non-empty and not the literal
`"127.0.0.1"`. -/
def firstNodeAddr : List Json → Option String
  | [] => none
  | itf :: rest =>
    match (itf.get "address").asStr with
    | some a =>
      if !a.isEmpty && a != "127.0.0.1" then some a else firstNodeAddr rest
    | none => firstNodeAddr rest

/-- client.rs `get_node_ip` applied to a decoded response body. -/
def getNodeIpFromResp (resp : Json) : Option String :=
  match (resp.get "data").asArray with
  | some interfaces => firstNodeAddr interfaces
  | none => none

/-- client.rs `get_node_ip`: the network GET is issued through `self.get`
with the `?` operator, so a transport/HTTP failure propagates as `Err`. -/
def getNodeIp (resp : Except String Json) : Except String (Option String) :=
  resp.map getNodeIpFromResp

/-- The `address` strings of the interfaces in a node network response, in
order (interfaces without a string `address` contribute nothing). -/
def interfaceAddrs (resp : Json) : List String :=
  ((resp.get "data").asArray.getD []).filterMap (fun itf => (itf.get "address").asStr)

/-- Inner loop of client.rs `get_guest_ip` (lines 205-213): first
`ip-address` string in one interface's `ip-addresses` that does not start
with `"127."` or `"::1"`. -/
def firstGuestAddrIn : List Json → Option String
  | [] => none
  | ipa :: rest =>
    match (ipa.get "ip-address").asStr with
    | some ip =>
      if !strStartsWith ip "127." && !strStartsWith ip "::1" then some ip
      else firstGuestAddrIn rest
    | none => firstGuestAddrIn rest

/-- Outer loop of client.rs `get_guest_ip` (lines 203-215) over the agent
`result` interfaces. -/
def firstGuestAddr : List Json → Option String
  | [] => none
  | itf :: rest =>
    match (itf.get "ip-addresses").asArray with
    | some ipas =>
      match firstGuestAddrIn ipas with
      | some ip => some ip
      | none => firstGuestAddr rest
    | none => firstGuestAddr rest

/-- client.rs `get_guest_ip` applied to a decoded (successful) agent
response body. -/
def getGuestIpFromAgent (resp : Json) : Option String :=
  match ((resp.get "data").get "result").asArray with
  | some interfaces => firstGuestAddr interfaces
  | none => none

/-- client.rs `get_guest_ip` (lines 193-226): the optional agent request's
outcome is matched; an `Err` is swallowed to `Ok(None)` (agent absent or not
running), a successful body is scanned for the first non-loopback address. -/
def getGuestIp (agentResp : Except String Json) : Except String (Option String) :=
  match agentResp with
  | .ok resp => .ok (getGuestIpFromAgent resp)
  | .error _ => .ok none

/-- The `ip-address` strings of a guest agent response, flattened in scan
order. -/
def guestAddrs (resp : Json) : List String :=
  (((resp.get "data").get "result").asArray.getD []).flatMap
    (fun itf => ((itf.get "ip-addresses").asArray.getD []).filterMap
      (fun ipa => (ipa.get "ip-address").asStr))

/-! ## IEEE-754 model for the gibibyte ceiling cells

commands.rs renders used/total byte pairs as
`(b as f64 / 1024.0 / 1024.0 / 1024.0).ceil() as u64`.
`b as f64` rounds the u64 to the nearest double (ties to even, 53-bit
significand; no overflow since `2^64 < f64::MAX`).  Each `/ 1024.0` only
decrements the exponent by 10 and is exact (no underflow: quotients stay
far above the subnormal range), so the three divisions equal one exact
division by `2^30`.  `.ceil()` of a double is its exact mathematical
ceiling (an integer below `2^64`, hence representable), and the final
`as u64` cast is in range.  The whole expression therefore equals
`⌈rnd53(b) / 2^30⌉` where `rnd53` is round-to-nearest-even at 53 bits. -/

/-- Bit length of a `Nat` below `2^64` (fuelled; 64 halvings suffice for
every u64 value). -/
def bitLenAux : Nat → Nat → Nat
  | 0, _ => 0
  | fuel + 1, n => if n = 0 then 0 else bitLenAux fuel (n / 2) + 1

/-- Bit length of a u64 value. -/
def bitLen (n : Nat) : Nat := bitLenAux 64 n

/-- Round-to-nearest, ties-to-even, at 53 significant bits: the value of
`n as f64` for a u64 `n`. -/
def rnd53 (n : Nat) : Nat :=
  if n < 2 ^ 53 then n
  else
    let e := bitLen n - 53
    let p := 2 ^ e
    let q := n / p
    let r := n % p
    if r < p / 2 then q * p
    else if p / 2 < r then (q + 1) * p
    else if q % 2 = 0 then q * p else (q + 1) * p

/-- One side of a used/total cell:
`(b as f64 / 1024.0 / 1024.0 / 1024.0).ceil() as u64`
(see the block comment above for why this is exactly
`⌈rnd53 b / 2^30⌉ = (rnd53 b + (2^30 - 1)) / 2^30`). -/
def gbCeilF (b : Nat) : Nat := (rnd53 b + 1073741823) / 1073741824

/-- The condensed used/total cell of commands.rs:
`format!("{}/{}", (m …).ceil() as u64, (mm …).ceil() as u64)` when both
sides are present, `"N/A"` otherwise.  This exact block appears in the
Json, Csv and Table branches of `list_nodes` and in the Json branch of
`show_node_info`. -/
def gbPair (m mm : Option Nat) : String :=
  match m, mm with
  | some m, some mm => toString (gbCeilF m) ++ "/" ++ toString (gbCeilF mm)
  | _, _ => "N/A"

/-- Same cell with the `" GB"` suffix used by the Table branch of
`show_node_info` (lines 367-379). -/
def gbPairGB (m mm : Option Nat) : String :=
  match m, mm with
  | some m, some mm =>
    toString (gbCeilF m) ++ "/" ++ toString (gbCeilF mm) ++ " GB"
  | _, _ => "N/A"

/-! ## Rendering helpers (commands.rs)

`format!("{:.1}", x)` on present fractional values is modelled by rounding
the exact rational to the nearest tenth (half away from zero); the claims
under verification only constrain the `"N/A"` branch of these cells, not
the decimal digits of present values, so the fine rounding mode of f64
formatting is immaterial here.  All rendered quantities are non-negative. -/

/-- One-decimal formatting of a non-negative rational. -/
def fmtTenths (q : Rat) : String :=
  let n : Int := round (q * 10)
  toString (n / 10) ++ "." ++ toString ((n % 10).toNat)

/-- `node.cpu.map(|c| format!("{:.1}", c * 100.0)).unwrap_or("N/A")`. -/
def fmtCpuPct (c : Option Rat) : String :=
  match c with
  | some c => fmtTenths (c * 100)
  | none => "N/A"

/-- `maxcpu.map(|c| c.to_string()).unwrap_or("N/A")` (also used for guest
CPU counts). -/
def fmtCores (c : Option Nat) : String :=
  match c with
  | some c => toString c
  | none => "N/A"

/-- `uptime.map(|u| format!("{:.1}", u as f64 / 86400.0)).unwrap_or("N/A")`. -/
def fmtUptimeDays (u : Option Nat) : String :=
  match u with
  | some u => fmtTenths ((u : Rat) / 86400)
  | none => "N/A"

/-- Guest one-decimal gibibyte cell:
`maxmem.map(|m| format!("{:.1}", m as f64 / 1024.0 / 1024.0 / 1024.0))
.unwrap_or("N/A")` (and the same for `maxdisk`). -/
def fmtGB1 (b : Option Nat) : String :=
  match b with
  | some m => fmtTenths ((m : Rat) / 1073741824)
  | none => "N/A"

/-- `"{}d {}h"` uptime cell of the `show_node_info` Table branch
(lines 381-385): days = `uptime / 86400`, hours = `(uptime % 86400) / 3600`. -/
def uptimeDH (u : Nat) : String :=
  toString (u / 86400) ++ "d " ++ toString ((u % 86400) / 3600) ++ "h"

/-- Node status cell of the `list_nodes` Table branch (lines 176-180) and of
the `show_node_info` node table (lines 356-360): green iff the status equals
`"online"`, red otherwise. -/
def nodeStatusCell (s : String) : Cell :=
  if s == "online" then { text := s, color := some .green }
  else { text := s, color := some .red }

/-- Guest status cell of the `show_node_info` guests table (lines 422-426):
green iff `"running"`, red otherwise. -/
def guestStatusCellShow (s : String) : Cell :=
  if s == "running" then { text := s, color := some .green }
  else { text := s, color := some .red }

/-- Guest status cell of the `list_node_guests` Table branch
(lines 550-556): green for `"running"`, red for `"stopped"`, yellow for
anything else. -/
def guestStatusCellList (s : String) : Cell :=
  if s == "running" then { text := s, color := some .green }
  else if s == "stopped" then { text := s, color := some .red }
  else { text := s, color := some .yellow }

/-- Guest type cell of the `show_node_info` guests table (lines 428-432):
blue `"VM"` iff the discriminator equals `"VM"`, magenta `"LXC"` otherwise. -/
def guestTypeCellShow (t : String) : Cell :=
  if t == "VM" then { text := "VM", color := some .blue }
  else { text := "LXC", color := some .magenta }

/-- Guest type cell of the `list_node_guests` Table branch (lines 558-562). -/
def guestTypeCellList (t : String) : Cell :=
  match t with
  | "VM" => { text := "VM", color := some .blue }
  | "LXC" => { text := "LXC", color := some .magenta }
  | _ => plainCell t

/-- CSV row of the `list_nodes` Csv branch (lines 96-128), as the list of
the eight comma-joined fields `NODE,IP,STATUS,CPU_PERCENT,CPU_CORES,RAM_GB,
HDD_GB,UPTIME_DAYS`. -/
def csvNodeFields (n : Node) : List String :=
  [n.node, n.ip.getD "N/A", n.status, fmtCpuPct n.cpu, fmtCores n.maxcpu,
   gbPair n.mem n.maxmem, gbPair n.disk n.maxdisk, fmtUptimeDays n.uptime]

/-- The printed CSV line for one node. -/
def csvNodeRow (n : Node) : String := String.intercalate "," (csvNodeFields n)

/-- models.rs `NodeJsonInfo`. -/
structure NodeJsonInfo where
  name : String
  cpu : String
  memory_gb : String
  storage_gb : String
  ipv4 : String
  status : String
deriving DecidableEq, Repr

/-- The `NodeJsonInfo` built by the Json branch of `list_nodes`
(lines 56-81) and, with the same field expressions, by the Json branch of
`show_node_info` (lines 237-294) for the node part. -/
def nodeJsonInfo (n : Node) : NodeJsonInfo :=
  { name := n.node
    cpu := fmtCores n.maxcpu
    memory_gb := gbPair n.mem n.maxmem
    storage_gb := gbPair n.disk n.maxdisk
    ipv4 := n.ip.getD "N/A"
    status := n.status }

/-- Table row of the `list_nodes` Table branch (lines 148-190): the node
cell stacks the resolved address on a second line when present and is just
the name otherwise. -/
def listNodesTableRow (n : Node) : List Cell :=
  [plainCell (match n.ip with
      | some ip => n.node ++ "\n" ++ ip
      | none => n.node),
   nodeStatusCell n.status,
   plainCell (fmtCpuPct n.cpu),
   plainCell (fmtCores n.maxcpu),
   plainCell (gbPair n.mem n.maxmem),
   plainCell (gbPair n.disk n.maxdisk),
   plainCell (fmtUptimeDays n.uptime)]

/-- One optional property row of the `show_node_info` node table: present
values get a `[label, value]` row, absent values add no row at all. -/
def optPropRow (label : String) (v : Option String) : List (String × Cell) :=
  match v with
  | some s => [(label, plainCell s)]
  | none => []

/-- The node property table of the `show_node_info` Table branch
(lines 341-385), as `(label, value-cell)` pairs: `Node` and `Status` rows are
unconditional; `IP`, `CPU Cores`, `RAM`, `HDD` and `Uptime` rows are added
only when the corresponding fields are present. -/
def nodeInfoTablePairs (n : Node) : List (String × Cell) :=
  [("Node", plainCell n.node)]
  ++ optPropRow "IP" n.ip
  ++ [("Status", nodeStatusCell n.status)]
  ++ optPropRow "CPU Cores" (n.maxcpu.map toString)
  ++ (match n.mem, n.maxmem with
      | some m, some mm => [("RAM", plainCell (gbPairGB (some m) (some mm)))]
      | _, _ => [])
  ++ (match n.disk, n.maxdisk with
      | some d, some md => [("HDD", plainCell (gbPairGB (some d) (some md)))]
      | _, _ => [])
  ++ optPropRow "Uptime" (n.uptime.map uptimeDH)

/-- CSV guest row of the `show_node_info` Csv branch (lines 302-335):
`NAME,STATUS,CPU,RAM_GB,HDD_GB,IPv4`. -/
def guestCsvFieldsShow (g : Guest) : List String :=
  [g.name, g.status, fmtCores g.cpus, fmtGB1 g.maxmem, fmtGB1 g.maxdisk,
   g.ip.getD "N/A"]

/-- CSV guest row of the `list_node_guests` Csv branch (lines 486-516):
`NODE,VMID,NAME,IP,TYPE,STATUS,CPUS,RAM_GB`. -/
def guestCsvFieldsList (node : String) (g : Guest) : List String :=
  [node, toString g.vmid, g.name, g.ip.getD "N/A", g.guestType, g.status,
   fmtCores g.cpus, fmtGB1 g.maxmem]

/-- models.rs `GuestJsonInfo`. -/
structure GuestJsonInfo where
  name : String
  guest_type : String
  cpu : String
  memory_gb : String
  storage_gb : String
  ipv4 : String
  status : String
deriving DecidableEq, Repr

/-- The `GuestJsonInfo` built identically by the Json branches of
`show_node_info` (lines 256-286) and `list_node_guests` (lines 582-612). -/
def guestJsonInfo (g : Guest) : GuestJsonInfo :=
  { name := g.name
    guest_type := g.guestType
    cpu := fmtCores g.cpus
    memory_gb := fmtGB1 g.maxmem
    storage_gb := fmtGB1 g.maxdisk
    ipv4 := g.ip.getD "N/A"
    status := g.status }

/-- Guest table row of the `show_node_info` Table branch (lines 406-441):
`Name, IP, Type, Status, CPUs, RAM`. -/
def guestTableRowShow (g : Guest) : List Cell :=
  [plainCell g.name,
   plainCell (g.ip.getD "N/A"),
   guestTypeCellShow g.guestType,
   guestStatusCellShow g.status,
   plainCell (fmtCores g.cpus),
   plainCell (fmtGB1 g.maxmem)]

/-- Guest table row of the `list_node_guests` Table branch (lines 534-572):
`VMID, Name, IP, Type, Status, CPUs, RAM`. -/
def guestTableRowList (g : Guest) : List Cell :=
  [plainCell (toString g.vmid),
   plainCell g.name,
   plainCell (g.ip.getD "N/A"),
   guestTypeCellList g.guestType,
   guestStatusCellList g.status,
   plainCell (fmtCores g.cpus),
   plainCell (fmtGB1 g.maxmem)]

/-! ## Guest normalization (commands.rs lines 222-230 and 472-483) -/

/-- UTF-8 encoding of one scalar value (Rust `str` is UTF-8; `str::cmp` is
byte-wise lexicographic). -/
def utf8Bytes (c : Char) : List Nat :=
  let n := c.toNat
  if n < 128 then [n]
  else if n < 2048 then [192 + n / 64, 128 + n % 64]
  else if n < 65536 then [224 + n / 4096, 128 + n / 64 % 64, 128 + n % 64]
  else [240 + n / 262144, 128 + n / 4096 % 64, 128 + n / 64 % 64, 128 + n % 64]

/-- The UTF-8 byte sequence of a string. -/
def strBytes (s : String) : List Nat := s.data.flatMap utf8Bytes

/-- Byte-wise lexicographic `≤` on byte sequences: the order underlying
Rust's `a.name().cmp(b.name()) != Greater`. -/
def bytesLe : List Nat → List Nat → Bool
  | [], _ => true
  | _ :: _, [] => false
  | a :: as, b :: bs => if a < b then true else if b < a then false else bytesLe as bs

/-- The comparator of `guests.sort_by(|a, b| a.name().cmp(b.name()))`, as the
boolean relation "a's name is byte-wise at most b's name". -/
def nameLe (a b : Guest) : Bool := bytesLe (strBytes a.name) (strBytes b.name)

/-- commands.rs lines 222-230 / 472-483: push all VMs, then all containers,
into one `Vec<Guest>`, then stable-sort by name.  Rust's `sort_by` is a
stable sort w.r.t. the comparator; any stable sort produces the same list,
so it is modelled by `List.mergeSort`. -/
def combineGuests (vms : List VM) (lxcs : List LXC) : List Guest :=
  (vms.map Guest.VM ++ lxcs.map Guest.LXC).mergeSort nameLe

/-! ## Command pipelines (commands.rs) over the client-call oracle

`Commands` only observes the `ProxmoxClient` through the six calls below;
a record of their outcomes is the environment of one command execution. -/

/-- The outcomes of the six `ProxmoxClient` calls during one command. -/
structure ClientEnv where
  getNodes : Except String (List Node)
  getNodeIp : String → Except String (Option String)
  getNodeStatus : String → Except String Node
  getVms : String → Except String (List VM)
  getLxc : String → Except String (List LXC)
  getGuestIp : String → Nat → String → Except String (Option String)

/-- commands.rs `list_nodes` data phase (lines 34-42): fetch the nodes with
`?`, then for each node `node.ip = self.client.get_node_ip(&node.node).await?`
— the `?` propagates a node-address failure. -/
def listNodesFetch (env : ClientEnv) : Except String (List Node) := do
  let nodes ← env.getNodes
  nodes.mapM (fun n => do
    let ip ← env.getNodeIp n.node
    pure { n with ip := ip })

/-- commands.rs `show_node_info` data phase (lines 201-230): node status,
node address, VMs, containers (all with `?`), guest-address enrichment
(also with `?`), then normalization. -/
def showNodeInfoFetch (env : ClientEnv) (node : String) :
    Except String (Node × List Guest) := do
  let nodeInfo ← env.getNodeStatus node
  let ip ← env.getNodeIp node
  let vms ← env.getVms node
  let lxcs ← env.getLxc node
  let vms ← vms.mapM (fun vm => do
    let i ← env.getGuestIp node vm.vmid "qemu"
    pure { vm with ip := i })
  let lxcs ← lxcs.mapM (fun c => do
    let i ← env.getGuestIp node c.vmid "lxc"
    pure { c with ip := i })
  pure ({ nodeInfo with ip := ip }, combineGuests vms lxcs)

/-- commands.rs `list_node_guests` data phase (lines 455-483). -/
def listNodeGuestsFetch (env : ClientEnv) (node : String) :
    Except String (List Guest) := do
  let vms ← env.getVms node
  let lxcs ← env.getLxc node
  let vms ← vms.mapM (fun vm => do
    let i ← env.getGuestIp node vm.vmid "qemu"
    pure { vm with ip := i })
  let lxcs ← lxcs.mapM (fun c => do
    let i ← env.getGuestIp node c.vmid "lxc"
    pure { c with ip := i })
  pure (combineGuests vms lxcs)

/-! ## Protocol negotiation (main.rs) -/

/-- Timeout of the probing client built in `try_connection`
(main.rs line 127). -/
def probeTimeoutSecs : Nat := 5

/-- Timeout of the main client built in `ProxmoxClient::new`
(client.rs line 45). -/
def clientTimeoutSecs : Nat := 30

/-- main.rs `resolve_base_url` (lines 90-117) over a probe oracle giving the
outcome of `try_connection` at each candidate base address: pass through a
controller that already carries a scheme, otherwise try `https://` then
`http://`, failing when both probes fail. -/
def resolveBaseUrl (probe : String → Bool) (controller : String) : Option String :=
  if strStartsWith controller "http://" || strStartsWith controller "https://" then
    some controller
  else if probe ("https://" ++ controller) then some ("https://" ++ controller)
  else if probe ("http://" ++ controller) then some ("http://" ++ controller)
  else none

/-- Where `main` (main.rs lines 166-185) stops: connection resolution
failed (exit 1 before authenticating), authentication failed (exit 1), or
the command runs against the resolved base URL. -/
inductive MainStage where
  | connectFailed
  | authFailed
  | run (baseUrl : String)
deriving DecidableEq, Repr

/-- main.rs lines 166-185: resolve the base URL, exiting on failure before
authentication; then authenticate against the resolved URL, exiting on
failure; otherwise run the command.  `auth` is the outcome oracle of
`ProxmoxClient::new`. -/
def mainConnect (probe : String → Bool) (auth : String → Bool)
    (controller : String) : MainStage :=
  match resolveBaseUrl probe controller with
  | none => .connectFailed
  | some url => if auth url then .run url else .authFailed

/-! ## Concrete test data -/

/-- A node as decoded from `listNodes`, before enrichment: every optional
field absent. -/
def exNodeBare : Node := { node := "pve1", status := "online" }

/-- A node whose status is neither `"online"` nor `"offline"`. -/
def exNodeUnknown : Node := { node := "pve2", status := "unknown" }

/-- A container guest with no optional data. -/
def exGuestBare : Guest := Guest.LXC { vmid := 101, name := "ct1", status := "running" }

/-- A guest whose status is neither `"running"` nor `"stopped"`. -/
def exGuestPaused : Guest := Guest.LXC { vmid := 102, name := "ct2", status := "paused" }

/-- A node network response whose only interface address is `"127.0.0.2"`,
a loopback address (in `127.0.0.0/8`) different from the literal
`"127.0.0.1"`. -/
def respLoopback : Json :=
  Json.obj [("data", Json.arr [Json.obj [("address", Json.str "127.0.0.2")]])]

/-- A node network response with one routable interface address. -/
def respGood : Json :=
  Json.obj [("data", Json.arr [Json.obj [("address", Json.str "10.1.1.5")]])]

/-- A client-call environment in which everything succeeds except the
node-address lookup. -/
def envNodeIpFails : ClientEnv :=
  { getNodes := .ok [exNodeBare]
    getNodeIp := fun _ => .error "Request failed: HTTP 500"
    getNodeStatus := fun s => .ok { node := s, status := "online" }
    getVms := fun _ => .ok []
    getLxc := fun _ => .ok []
    getGuestIp := fun _ _ _ => .ok none }

/-- A client-call environment in which every call succeeds. -/
def envAllOk : ClientEnv :=
  { getNodes := .ok [exNodeBare]
    getNodeIp := fun _ => .ok (some "10.0.0.7")
    getNodeStatus := fun s => .ok { node := s, status := "online" }
    getVms := fun _ => .ok [{ vmid := 100, name := "vm1", status := "running" }]
    getLxc := fun _ => .ok [{ vmid := 101, name := "ct1", status := "running" }]
    getGuestIp := fun _ _ _ => .ok none }

/-- `2^63 + 1` bytes: a u64 quantity that f64 cannot represent exactly. -/
def u64Big : Nat := 9223372036854775809

/-- Probe oracle: every probe succeeds. -/
def probeAlways : String → Bool := fun _ => true

/-- Probe oracle: only plaintext probes succeed. -/
def probeHttpOnly : String → Bool := fun u => strStartsWith u "http://"

/-- Probe oracle: every probe fails. -/
def probeNever : String → Bool := fun _ => false

/-- Authentication oracle: always succeeds. -/
def authAlways : String → Bool := fun _ => true

/-! ## Helper lemmas -/

theorem bytesLe_cons {x y : Nat} {xs ys : List Nat} :
    bytesLe (x :: xs) (y :: ys) = true ↔
      x < y ∨ (x = y ∧ bytesLe xs ys = true) := by
  simp only [bytesLe]
  split_ifs with h1 h2
  · simp [h1]
  · simp only [Bool.false_eq_true, false_iff]
    rintro (h | ⟨rfl, _⟩) <;> omega
  · have hxy : x = y := by omega
    subst hxy
    simp [Nat.lt_irrefl]

theorem bytesLe_refl (l : List Nat) : bytesLe l l = true := by
  induction l with
  | nil => rfl
  | cons x xs ih => exact bytesLe_cons.mpr (Or.inr ⟨rfl, ih⟩)

theorem bytesLe_total (a b : List Nat) : (bytesLe a b || bytesLe b a) = true := by
  induction a generalizing b with
  | nil => simp [bytesLe]
  | cons x xs ih =>
    cases b with
    | nil => simp [bytesLe]
    | cons y ys =>
      simp only [Bool.or_eq_true, bytesLe_cons]
      rcases Nat.lt_trichotomy x y with h | h | h
      · exact Or.inl (Or.inl h)
      · subst h
        rcases Bool.or_eq_true _ _ |>.mp (ih ys) with h' | h'
        · exact Or.inl (Or.inr ⟨rfl, h'⟩)
        · exact Or.inr (Or.inr ⟨rfl, h'⟩)
      · exact Or.inr (Or.inl h)

theorem bytesLe_trans (a : List Nat) :
    ∀ b c, bytesLe a b = true → bytesLe b c = true → bytesLe a c = true := by
  induction a with
  | nil => intro b c _ _; rfl
  | cons x xs ih =>
    intro b c h1 h2
    cases b with
    | nil => simp [bytesLe] at h1
    | cons y ys =>
      cases c with
      | nil => simp [bytesLe] at h2
      | cons z zs =>
        rw [bytesLe_cons] at h1 h2 ⊢
        rcases h1 with h1 | ⟨rfl, h1⟩
        · rcases h2 with h2 | ⟨rfl, h2⟩
          · exact Or.inl (Nat.lt_trans h1 h2)
          · exact Or.inl h1
        · rcases h2 with h2 | ⟨rfl, h2⟩
          · exact Or.inl h2
          · exact Or.inr ⟨rfl, ih ys zs h1 h2⟩

theorem nameLe_trans (a b c : Guest) :
    nameLe a b → nameLe b c → nameLe a c :=
  fun h1 h2 => bytesLe_trans _ _ _ h1 h2

theorem nameLe_total (a b : Guest) : (nameLe a b || nameLe b a) = true :=
  bytesLe_total _ _

/-- A stable sort leaves the elements selected by any predicate that is
`le`-equivalence-closed in their original relative order. -/
theorem filter_mergeSort_key {α : Type} (le : α → α → Bool) (p : α → Bool)
    (htrans : ∀ a b c : α, le a b → le b c → le a c)
    (htotal : ∀ a b : α, (le a b || le b a) = true)
    (hp : ∀ a b : α, p a → p b → le a b) (l : List α) :
    (l.mergeSort le).filter p = l.filter p := by
  have hpw : (l.filter p).Pairwise (fun a b => le a b) := by
    apply List.pairwise_of_forall_mem_list
    intro a ha b hb
    exact hp a b (List.of_mem_filter ha) (List.of_mem_filter hb)
  have h1 : List.Sublist (l.filter p) (l.mergeSort le) :=
    List.sublist_mergeSort htrans htotal hpw (List.filter_sublist l)
  have h2 : List.Sublist ((l.filter p).filter p) ((l.mergeSort le).filter p) :=
    h1.filter p
  have hself : (l.filter p).filter p = l.filter p := by
    apply List.filter_eq_self.mpr
    intro a ha
    exact List.of_mem_filter ha
  rw [hself] at h2
  have hperm : List.Perm ((l.mergeSort le).filter p) (l.filter p) :=
    (List.mergeSort_perm l le).filter p
  exact (h2.eq_of_length hperm.length_eq.symm).symm

/-- Guests with byte-wise equal names are `nameLe`-equivalent. -/
theorem nameLe_of_name_eq {nm : String} (a b : Guest) :
    (a.name == nm) = true → (b.name == nm) = true → nameLe a b = true := by
  intro ha hb
  have ha' : a.name = nm := by simpa using ha
  have hb' : b.name = nm := by simpa using hb
  unfold nameLe
  rw [ha', hb']
  exact bytesLe_refl _

/-- The interface scan of `get_node_ip` returns the head of the list of
non-empty, non-`"127.0.0.1"` addresses. -/
theorem firstNodeAddr_eq (l : List Json) :
    firstNodeAddr l =
      ((l.filterMap (fun itf => (itf.get "address").asStr)).filter
        (fun a => !a.isEmpty && a != "127.0.0.1")).head? := by
  induction l with
  | nil => rfl
  | cons itf rest ih =>
    simp only [firstNodeAddr, List.filterMap_cons]
    cases h : (itf.get "address").asStr with
    | none => simpa using ih
    | some a =>
      by_cases hc : (!a.isEmpty && a != "127.0.0.1") = true
      · simp [hc, List.filter_cons]
      · simp [hc, List.filter_cons, ih]

/-- The inner scan of `get_guest_ip` returns the head of the filtered
`ip-address` strings of one interface. -/
theorem firstGuestAddrIn_eq (l : List Json) :
    firstGuestAddrIn l =
      ((l.filterMap (fun ipa => (ipa.get "ip-address").asStr)).filter
        (fun ip => !strStartsWith ip "127." && !strStartsWith ip "::1")).head? := by
  induction l with
  | nil => rfl
  | cons ipa rest ih =>
    simp only [firstGuestAddrIn, List.filterMap_cons]
    cases h : (ipa.get "ip-address").asStr with
    | none => simpa using ih
    | some ip =>
      by_cases hc : (!strStartsWith ip "127." && !strStartsWith ip "::1") = true
      · simp [hc, List.filter_cons]
      · simp [hc, List.filter_cons, ih]

/-- The outer scan of `get_guest_ip` returns the head of the flattened,
filtered address list. -/
theorem firstGuestAddr_eq (l : List Json) :
    firstGuestAddr l =
      ((l.flatMap (fun itf => ((itf.get "ip-addresses").asArray.getD []).filterMap
          (fun ipa => (ipa.get "ip-address").asStr))).filter
        (fun ip => !strStartsWith ip "127." && !strStartsWith ip "::1")).head? := by
  induction l with
  | nil => rfl
  | cons itf rest ih =>
    simp only [firstGuestAddr, List.flatMap_cons, List.filter_append]
    cases h : (itf.get "ip-addresses").asArray with
    | none => simpa [h] using ih
    | some ipas =>
      simp only [h, Option.getD_some]
      rw [firstGuestAddrIn_eq]
      cases hh : (ipas.filterMap (fun ipa => (ipa.get "ip-address").asStr)).filter
          (fun ip => !strStartsWith ip "127." && !strStartsWith ip "::1") with
      | nil => simpa [hh] using ih
      | cons a as => simp [hh]

/-- `get_guest_ip` on a successful agent body: head of the filtered,
flattened address list. -/
theorem getGuestIpFromAgent_eq (resp : Json) :
    getGuestIpFromAgent resp =
      ((guestAddrs resp).filter
        (fun ip => !strStartsWith ip "127." && !strStartsWith ip "::1")).head? := by
  unfold getGuestIpFromAgent guestAddrs
  cases h : ((resp.get "data").get "result").asArray with
  | none => simp [h]
  | some interfaces => simp [h, firstGuestAddr_eq]

/-- Below `2^53` every natural number is an exact f64 value. -/
theorem rnd53_of_lt {n : Nat} (h : n < 2 ^ 53) : rnd53 n = n := by
  unfold rnd53
  rw [if_pos h]

theorem exc_bind_ok {α β : Type} (a : α) (f : α → Except String β) :
    (Except.ok a >>= f) = f a := rfl

theorem exc_bind_error {α β : Type} (e : String) (f : α → Except String β) :
    ((Except.error e : Except String α) >>= f) = Except.error e := rfl

/-- An effectful map over `Except` succeeds when every step succeeds. -/
theorem mapM_total {α β : Type} (f : α → Except String β)
    (hf : ∀ a, ∃ b, f a = Except.ok b) (l : List α) :
    ∃ out, l.mapM f = Except.ok out := by
  induction l with
  | nil => exact ⟨[], rfl⟩
  | cons x xs ih =>
    obtain ⟨b, hb⟩ := hf x
    obtain ⟨out, hout⟩ := ih
    refine ⟨b :: out, ?_⟩
    rw [List.mapM_cons, hb, exc_bind_ok, hout, exc_bind_ok]
    rfl

/-- The property labels present in the `show_node_info` node table, one per
present optional field plus the unconditional `Node` and `Status` rows. -/
theorem labels_nodeInfoTablePairs (n : Node) :
    (nodeInfoTablePairs n).map Prod.fst =
      ["Node"] ++ (if n.ip.isSome then ["IP"] else [])
      ++ ["Status"] ++ (if n.maxcpu.isSome then ["CPU Cores"] else [])
      ++ (if n.mem.isSome && n.maxmem.isSome then ["RAM"] else [])
      ++ (if n.disk.isSome && n.maxdisk.isSome then ["HDD"] else [])
      ++ (if n.uptime.isSome then ["Uptime"] else []) := by
  obtain ⟨nd, st, ip, cpu, maxcpu, mem, maxmem, disk, maxdisk, uptime⟩ := n
  cases ip <;> cases maxcpu <;> cases mem <;> cases maxmem <;> cases disk <;>
    cases maxdisk <;> cases uptime <;> rfl

/-! ## The claims -/

/-- Claim C3: `resolve_base_url` negotiates the protocol exactly: an address
already carrying a scheme passes through unchanged with no probing (the
result does not depend on the probe oracle); otherwise the `https://`
variant is probed first — with the 5-second `try_connection` timeout against
the 30-second main-client timeout — and the `http://` variant is probed only
if the encrypted probe fails; when both probes fail, resolution fails and
`main` exits before performing real authentication (the result is
`connectFailed` for every authentication oracle). -/
theorem c3_resolve_base_url :
    (∀ (probe : String → Bool) (c : String),
      (strStartsWith c "http://" || strStartsWith c "https://") = true →
        resolveBaseUrl probe c = some c) ∧
    (∀ (probe : String → Bool) (c : String),
      (strStartsWith c "http://" || strStartsWith c "https://") = false →
        probe ("https://" ++ c) = true →
        resolveBaseUrl probe c = some ("https://" ++ c)) ∧
    (∀ (probe : String → Bool) (c : String),
      (strStartsWith c "http://" || strStartsWith c "https://") = false →
        probe ("https://" ++ c) = false →
        probe ("http://" ++ c) = true →
        resolveBaseUrl probe c = some ("http://" ++ c)) ∧
    (∀ (probe : String → Bool) (auth : String → Bool) (c : String),
      (strStartsWith c "http://" || strStartsWith c "https://") = false →
        probe ("https://" ++ c) = false →
        probe ("http://" ++ c) = false →
        resolveBaseUrl probe c = none ∧
        mainConnect probe auth c = MainStage.connectFailed) ∧
    probeTimeoutSecs = 5 ∧ clientTimeoutSecs = 30 ∧
    probeTimeoutSecs < clientTimeoutSecs := by
  refine ⟨?_, ?_, ?_, ?_, rfl, rfl, by norm_num [probeTimeoutSecs, clientTimeoutSecs]⟩
  · intro probe c h
    unfold resolveBaseUrl
    rw [h]
    rfl
  · intro probe c h h1
    unfold resolveBaseUrl
    rw [h, h1]
    rfl
  · intro probe c h h1 h2
    unfold resolveBaseUrl
    rw [h, h1, h2]
    rfl
  · intro probe auth c h h1 h2
    have hr : resolveBaseUrl probe c = none := by
      unfold resolveBaseUrl
      rw [h, h1, h2]
      rfl
    exact ⟨hr, by unfold mainConnect; rw [hr]⟩

/-- Witness for C3 at controller `"10.0.0.5"`: encrypted probe success gives
`"https://10.0.0.5"`; encrypted failure with plaintext success gives
`"http://10.0.0.5"`; both failing aborts before authentication; an explicit
scheme passes through. -/
theorem c3_witness :
    resolveBaseUrl probeAlways "10.0.0.5" = some "https://10.0.0.5" ∧
    resolveBaseUrl probeHttpOnly "10.0.0.5" = some "http://10.0.0.5" ∧
    resolveBaseUrl probeNever "10.0.0.5" = none ∧
    mainConnect probeNever authAlways "10.0.0.5" = MainStage.connectFailed ∧
    resolveBaseUrl probeNever "https://10.0.0.5" = some "https://10.0.0.5" := by
  have h := c3_resolve_base_url
  refine ⟨h.2.1 probeAlways "10.0.0.5" (by decide) rfl,
          h.2.2.1 probeHttpOnly "10.0.0.5" (by decide) (by decide) (by decide),
          (h.2.2.2.1 probeNever authAlways "10.0.0.5" (by decide) rfl rfl).1,
          (h.2.2.2.1 probeNever authAlways "10.0.0.5" (by decide) rfl rfl).2,
          h.1 probeNever "https://10.0.0.5" (by decide)⟩

/-- Claim C5: `get_guest_ip` never propagates a failure — an error from the
optional agent request yields `Ok(None)`, and a successful response yields
the first address that does not start with `"127."` or `"::1"` (or `None`
when no such address exists); in every case the result is `Ok`. -/
theorem c5_guest_address_never_fails :
    (∀ e : String, getGuestIp (Except.error e) = Except.ok none) ∧
    (∀ resp : Json, getGuestIp (Except.ok resp) =
      Except.ok (((guestAddrs resp).filter
        (fun ip => !strStartsWith ip "127." && !strStartsWith ip "::1")).head?)) ∧
    (∀ r : Except String Json, ∃ v, getGuestIp r = Except.ok v) := by
  refine ⟨fun e => rfl, fun resp => ?_, fun r => ?_⟩
  · show Except.ok (getGuestIpFromAgent resp) = _
    rw [getGuestIpFromAgent_eq]
  · cases r with
    | ok resp => exact ⟨_, rfl⟩
    | error e => exact ⟨none, rfl⟩

/-- Claim C8: `get_node_status` builds the node from the caller-supplied
identifier — the response body never influences the `node` field — with the
extended numeric fields decoded from the response body and absent fields
left `None` (a missing path decodes to `Null`, whose `as_f64`/`as_u64` is
`None`). -/
theorem c8_node_detail_fields (resp : Json) (nodeId : String) :
    (getNodeStatus resp nodeId).node = nodeId ∧
    (getNodeStatus resp nodeId).status = "online" ∧
    (getNodeStatus resp nodeId).ip = none ∧
    (getNodeStatus resp nodeId).cpu = ((resp.get "data").get "cpu").asF64 ∧
    (getNodeStatus resp nodeId).maxcpu =
      ((((resp.get "data").get "cpuinfo").get "cpus").asU64).map (fun v => v % 2 ^ 32) ∧
    (getNodeStatus resp nodeId).mem =
      (((resp.get "data").get "memory").get "used").asU64 ∧
    (getNodeStatus resp nodeId).maxmem =
      (((resp.get "data").get "memory").get "total").asU64 ∧
    (getNodeStatus resp nodeId).disk =
      (((resp.get "data").get "rootfs").get "used").asU64 ∧
    (getNodeStatus resp nodeId).maxdisk =
      (((resp.get "data").get "rootfs").get "total").asU64 ∧
    (getNodeStatus resp nodeId).uptime = ((resp.get "data").get "uptime").asU64 ∧
    ((resp.get "data").get "cpu" = Json.null →
      (getNodeStatus resp nodeId).cpu = none) ∧
    ((resp.get "data").get "uptime" = Json.null →
      (getNodeStatus resp nodeId).uptime = none) := by
  refine ⟨rfl, rfl, rfl, rfl, rfl, rfl, rfl, rfl, rfl, rfl, ?_, ?_⟩
  · intro h
    show ((resp.get "data").get "cpu").asF64 = none
    rw [h]
    rfl
  · intro h
    show ((resp.get "data").get "uptime").asU64 = none
    rw [h]
    rfl

/-- Witness for C8 on a body that carries no status fields at all: the
identifier still comes from the caller and the absent fields are `None`. -/
theorem c8_witness :
    (getNodeStatus respGood "pve9").node = "pve9" ∧
    (getNodeStatus respGood "pve9").cpu = none ∧
    (getNodeStatus respGood "pve9").uptime = none := by
  have h := c8_node_detail_fields respGood "pve9"
  exact ⟨h.1, h.2.2.2.2.2.2.2.2.2.2.1 rfl, h.2.2.2.2.2.2.2.2.2.2.2 rfl⟩

/-- Claim C6 counterexample: on a network response whose only interface
address is `"127.0.0.2"` — a loopback address in `127.0.0.0/8` — the code
returns that loopback address, because the scan only excludes the exact
literal `"127.0.0.1"`. -/
theorem c6_counterexample :
    getNodeIpFromResp respLoopback = some "127.0.0.2" ∧
    strStartsWith "127.0.0.2" "127." = true ∧
    "127.0.0.2" ≠ "127.0.0.1" := by
  refine ⟨by decide, by decide, by decide⟩

/-- Claim C6, amended: `get_node_ip` returns the first interface address
that is non-empty and not the exact literal `"127.0.0.1"` (or `None` when
no such address exists); other loopback addresses (`127.0.0.0/8` beyond
`127.0.0.1`, and `"::1"`) are not filtered.  A transport failure of the
underlying GET propagates as an error. -/
theorem c6_first_nonexcluded_address :
    (∀ resp : Json, getNodeIpFromResp resp =
      ((interfaceAddrs resp).filter (fun a => !a.isEmpty && a != "127.0.0.1")).head?) ∧
    (∀ (resp : Json) (a : String), getNodeIpFromResp resp = some a →
      ¬a.isEmpty ∧ a ≠ "127.0.0.1") ∧
    (∀ e : String, getNodeIp (Except.error e) = Except.error e) := by
  have hmain : ∀ resp : Json, getNodeIpFromResp resp =
      ((interfaceAddrs resp).filter (fun a => !a.isEmpty && a != "127.0.0.1")).head? := by
    intro resp
    unfold getNodeIpFromResp interfaceAddrs
    cases h : (resp.get "data").asArray with
    | none => simp [h]
    | some interfaces => simp [h, firstNodeAddr_eq]
  refine ⟨hmain, ?_, fun e => rfl⟩
  intro resp a ha
  rw [hmain] at ha
  cases hfl : (interfaceAddrs resp).filter (fun a => !a.isEmpty && a != "127.0.0.1") with
  | nil => rw [hfl] at ha; cases ha
  | cons x xs =>
    rw [hfl] at ha
    have hx : a = x := by simpa using ha.symm
    subst hx
    have hmem : a ∈ (interfaceAddrs resp).filter (fun a => !a.isEmpty && a != "127.0.0.1") := by
      rw [hfl]; exact List.mem_cons_self _ _
    have hp := List.of_mem_filter hmem
    simp only [Bool.and_eq_true, Bool.not_eq_true'] at hp
    refine ⟨by simp [hp.1], ?_⟩
    have := hp.2
    simp only [bne_iff_ne, ne_eq] at this
    exact this

/-- Witness for C6 (amended): a routable first address is returned and is
neither empty nor the excluded literal. -/
theorem c6_witness :
    ¬("10.1.1.5" : String).isEmpty ∧ "10.1.1.5" ≠ "127.0.0.1" :=
  c6_first_nonexcluded_address.2.1 respGood "10.1.1.5" (by decide)

/-- Claim C4: the normalized guest list is a permutation of the tagged
concatenation (VMs first, then containers) — so nothing is deduplicated and
equal identifiers from both collections are retained — it is sorted
ascending by name under the byte-wise, case-sensitive order, and guests
with byte-wise equal names keep their relative input order (the filter by
any fixed name is unchanged by the sort). -/
theorem c4_normalized_guest_list (vms : List VM) (lxcs : List LXC) :
    List.Perm (combineGuests vms lxcs) (vms.map Guest.VM ++ lxcs.map Guest.LXC) ∧
    (combineGuests vms lxcs).Pairwise (fun a b => nameLe a b = true) ∧
    (∀ nm : String, (combineGuests vms lxcs).filter (fun g => g.name == nm) =
      (vms.map Guest.VM ++ lxcs.map Guest.LXC).filter (fun g => g.name == nm)) := by
  refine ⟨List.mergeSort_perm _ _,
          List.sorted_mergeSort nameLe_trans nameLe_total _, ?_⟩
  intro nm
  exact filter_mergeSort_key nameLe (fun g => g.name == nm)
    nameLe_trans nameLe_total (fun a b => nameLe_of_name_eq a b) _

/-- Claim C10: among guests with a given byte-wise equal name, every VM
precedes every container in the normalized list, because VMs are pushed
into the combined vector before containers and the sort is stable: the
name-filtered output is literally the filtered VMs followed by the filtered
containers. -/
theorem c10_vm_before_container (vms : List VM) (lxcs : List LXC) (nm : String) :
    (combineGuests vms lxcs).filter (fun g => g.name == nm) =
      ((vms.filter (fun v => v.name == nm)).map Guest.VM) ++
      ((lxcs.filter (fun c => c.name == nm)).map Guest.LXC) := by
  unfold combineGuests
  rw [filter_mergeSort_key nameLe (fun g => g.name == nm)
        nameLe_trans nameLe_total (fun a b => nameLe_of_name_eq a b),
      List.filter_append, List.filter_map, List.filter_map]
  rfl

/-- Claim C7 counterexample: at `b = 2^63 + 1` bytes the rendered used/total
side is `8589934592`, which is strictly below the exact ceiling
`⌈b / 2^30⌉ = 8589934593`: converting to f64 rounds `b` down to `2^63`
before the division, so the claimed "never below the true usage" fails. -/
theorem c7_counterexample :
    gbPair (some u64Big) (some u64Big) = "8589934592/8589934592" ∧
    gbCeilF u64Big = 8589934592 ∧
    (u64Big + (2 ^ 30 - 1)) / 2 ^ 30 = 8589934593 ∧
    8589934592 * 2 ^ 30 < u64Big := by
  refine ⟨by decide, by decide, by decide, by decide⟩

/-- Claim C7, amended: each side of the used/total cell equals
`⌈rnd53(b) / 2^30⌉` where `rnd53` is the f64 rounding of the byte count; for
every `b < 2^53` (all exactly-representable byte counts, i.e. up to 8 PiB)
this is exactly the integer ceiling `⌈b / 2^30⌉` — the least whole-gibibyte
count covering `b`, never below the true usage.  For larger `b` the f64
rounding can push the rendered value below the exact ceiling. -/
theorem c7_gb_ceiling (b : Nat) (hb : b < 2 ^ 53) :
    gbCeilF b = (b + (2 ^ 30 - 1)) / 2 ^ 30 ∧
    b ≤ gbCeilF b * 2 ^ 30 ∧
    (∀ k : Nat, b ≤ k * 2 ^ 30 → gbCeilF b ≤ k) ∧
    (∀ mm : Nat, mm < 2 ^ 53 →
      gbPair (some b) (some mm) =
        toString ((b + (2 ^ 30 - 1)) / 2 ^ 30) ++ "/" ++
        toString ((mm + (2 ^ 30 - 1)) / 2 ^ 30)) := by
  have h1 : gbCeilF b = (b + 1073741823) / 1073741824 := by
    unfold gbCeilF
    rw [rnd53_of_lt hb]
  have hpow : ((2 : Nat) ^ 30 - 1) = 1073741823 := by norm_num
  have hpow2 : ((2 : Nat) ^ 30) = 1073741824 := by norm_num
  refine ⟨by rw [h1, hpow, hpow2], ?_, ?_, ?_⟩
  · rw [h1, hpow2]
    omega
  · intro k hk
    rw [h1]
    rw [hpow2] at hk
    omega
  · intro mm hmm
    have h2 : gbCeilF mm = (mm + 1073741823) / 1073741824 := by
      unfold gbCeilF
      rw [rnd53_of_lt hmm]
    show toString (gbCeilF b) ++ "/" ++ toString (gbCeilF mm) = _
    rw [h1, h2, hpow, hpow2]

/-- Witness for C7 (amended) at `b = 2^31 + 5` and `mm = 2^30`: the rendered
pair is `"3/1"` and the used side is not below the true usage. -/
theorem c7_witness :
    gbPair (some 2147483653) (some 1073741824) = "3/1" ∧
    2147483653 ≤ gbCeilF 2147483653 * 2 ^ 30 := by
  have h := c7_gb_ceiling 2147483653 (by norm_num)
  refine ⟨?_, h.2.1⟩
  rw [h.2.2.2 1073741824 (by norm_num)]
  decide

/-- Claim C1 counterexample: in an environment where `listNodes` succeeds
(and so does everything else) but the node-address lookup fails, both
`list_nodes` and `show_node_info` abort with that very error instead of
rendering the address as absent: the `?` on `get_node_ip` propagates. -/
theorem c1_counterexample :
    listNodesFetch envNodeIpFails = Except.error "Request failed: HTTP 500" ∧
    showNodeInfoFetch envNodeIpFails "pve1" =
      Except.error "Request failed: HTTP 500" := by
  exact ⟨rfl, rfl⟩

/-- Claim C1, amended: a failure of the node-address lookup `get_node_ip`
does abort `list_nodes` and `show_node_info` — it propagates exactly like
the required calls (`listNodes`, `nodeDetail`, `listGuests`) — while only
the guest-address lookup `get_guest_ip` never propagates: it swallows any
agent error into `Ok(None)` at the client layer, so guest enrichment cannot
abort a listing whose required calls succeed. -/
theorem c1_error_propagation :
    (∀ (env : ClientEnv) (n : Node) (rest : List Node) (e : String),
      env.getNodes = Except.ok (n :: rest) →
      env.getNodeIp n.node = Except.error e →
      listNodesFetch env = Except.error e) ∧
    (∀ (env : ClientEnv) (node : String) (nd : Node) (e : String),
      env.getNodeStatus node = Except.ok nd →
      env.getNodeIp node = Except.error e →
      showNodeInfoFetch env node = Except.error e) ∧
    (∀ (env : ClientEnv) (e : String),
      env.getNodes = Except.error e → listNodesFetch env = Except.error e) ∧
    (∀ e : String, getGuestIp (Except.error e) = Except.ok none) ∧
    (∀ (env : ClientEnv) (node : String) (vms : List VM) (lxcs : List LXC),
      env.getVms node = Except.ok vms →
      env.getLxc node = Except.ok lxcs →
      (∀ (a : String) (b : Nat) (c : String), ∃ x, env.getGuestIp a b c = Except.ok x) →
      ∃ out, listNodeGuestsFetch env node = Except.ok out) := by
  refine ⟨?_, ?_, ?_, fun e => rfl, ?_⟩
  · intro env n rest e hn hip
    unfold listNodesFetch
    rw [hn, exc_bind_ok, List.mapM_cons, hip, exc_bind_error, exc_bind_error]
  · intro env node nd e hn hip
    unfold showNodeInfoFetch
    rw [hn, exc_bind_ok, hip, exc_bind_error]
  · intro env e hn
    unfold listNodesFetch
    rw [hn, exc_bind_error]
  · intro env node vms lxcs hv hl hg
    unfold listNodeGuestsFetch
    rw [hv, exc_bind_ok, hl, exc_bind_ok]
    obtain ⟨vs, hvs⟩ := mapM_total
      (fun vm => do
        let i ← env.getGuestIp node vm.vmid "qemu"
        pure { vm with ip := i })
      (fun vm => by
        obtain ⟨x, hx⟩ := hg node vm.vmid "qemu"
        refine ⟨{ vm with ip := x }, ?_⟩
        show (env.getGuestIp node vm.vmid "qemu" >>= fun i =>
          pure { vm with ip := i }) = _
        rw [hx, exc_bind_ok]
        rfl) vms
    obtain ⟨cs, hcs⟩ := mapM_total
      (fun c => do
        let i ← env.getGuestIp node c.vmid "lxc"
        pure { c with ip := i })
      (fun c => by
        obtain ⟨x, hx⟩ := hg node c.vmid "lxc"
        refine ⟨{ c with ip := x }, ?_⟩
        show (env.getGuestIp node c.vmid "lxc" >>= fun i =>
          pure { c with ip := i }) = _
        rw [hx, exc_bind_ok]
        rfl) lxcs
    rw [hvs, exc_bind_ok, hcs, exc_bind_ok]
    exact ⟨_, rfl⟩

/-- Claim C2 counterexample: a node with no optional fields, rendered by the
`show_node_info` Table branch, produces only the `Node` and `Status`
property rows — the absent fields' rows are omitted entirely and the string
`"N/A"` appears nowhere — and the `list_nodes` Table node cell omits the
address line instead of rendering `"N/A"`. -/
theorem c2_counterexample :
    exNodeBare.ip = none ∧
    (nodeInfoTablePairs exNodeBare).map Prod.fst = ["Node", "Status"] ∧
    (nodeInfoTablePairs exNodeBare).all (fun p => p.2.text != "N/A") = true ∧
    (listNodesTableRow exNodeBare)[0]? = some (plainCell "pve1") := by
  refine ⟨rfl, by decide, by decide, by decide⟩

/-- Claim C2, amended: an absent optional field renders as the literal
`"N/A"` in the CSV and JSON encodings of every view and in the value
columns of the list tables; the two exceptions are the `show_node_info`
node-property table, which omits the whole property row for an absent
field, and the `list_nodes` Table node cell, which stacks the address only
when present (rendering just the name otherwise). -/
theorem c2_na_rendering (n : Node) (g : Guest) (node : String) :
    (n.ip = none →
      (csvNodeFields n)[1]? = some "N/A" ∧
      (nodeJsonInfo n).ipv4 = "N/A" ∧
      (listNodesTableRow n)[0]? = some (plainCell n.node) ∧
      "IP" ∉ (nodeInfoTablePairs n).map Prod.fst) ∧
    (n.cpu = none →
      (csvNodeFields n)[3]? = some "N/A" ∧
      (listNodesTableRow n)[2]? = some (plainCell "N/A")) ∧
    (n.maxcpu = none →
      (csvNodeFields n)[4]? = some "N/A" ∧
      (nodeJsonInfo n).cpu = "N/A" ∧
      (listNodesTableRow n)[3]? = some (plainCell "N/A") ∧
      "CPU Cores" ∉ (nodeInfoTablePairs n).map Prod.fst) ∧
    (n.mem = none ∨ n.maxmem = none →
      (csvNodeFields n)[5]? = some "N/A" ∧
      (nodeJsonInfo n).memory_gb = "N/A" ∧
      (listNodesTableRow n)[4]? = some (plainCell "N/A") ∧
      "RAM" ∉ (nodeInfoTablePairs n).map Prod.fst) ∧
    (n.disk = none ∨ n.maxdisk = none →
      (csvNodeFields n)[6]? = some "N/A" ∧
      (nodeJsonInfo n).storage_gb = "N/A" ∧
      (listNodesTableRow n)[5]? = some (plainCell "N/A") ∧
      "HDD" ∉ (nodeInfoTablePairs n).map Prod.fst) ∧
    (n.uptime = none →
      (csvNodeFields n)[7]? = some "N/A" ∧
      (listNodesTableRow n)[6]? = some (plainCell "N/A") ∧
      "Uptime" ∉ (nodeInfoTablePairs n).map Prod.fst) ∧
    (g.ip = none →
      (guestCsvFieldsShow g)[5]? = some "N/A" ∧
      (guestCsvFieldsList node g)[3]? = some "N/A" ∧
      (guestJsonInfo g).ipv4 = "N/A" ∧
      (guestTableRowShow g)[1]? = some (plainCell "N/A") ∧
      (guestTableRowList g)[2]? = some (plainCell "N/A")) ∧
    (g.cpus = none →
      (guestCsvFieldsShow g)[2]? = some "N/A" ∧
      (guestCsvFieldsList node g)[6]? = some "N/A" ∧
      (guestJsonInfo g).cpu = "N/A" ∧
      (guestTableRowShow g)[4]? = some (plainCell "N/A") ∧
      (guestTableRowList g)[5]? = some (plainCell "N/A")) ∧
    (g.maxmem = none →
      (guestCsvFieldsShow g)[3]? = some "N/A" ∧
      (guestCsvFieldsList node g)[7]? = some "N/A" ∧
      (guestJsonInfo g).memory_gb = "N/A" ∧
      (guestTableRowShow g)[5]? = some (plainCell "N/A") ∧
      (guestTableRowList g)[6]? = some (plainCell "N/A")) ∧
    (g.maxdisk = none →
      (guestCsvFieldsShow g)[4]? = some "N/A" ∧
      (guestJsonInfo g).storage_gb = "N/A") := by
  refine ⟨?_, ?_, ?_, ?_, ?_, ?_, ?_, ?_, ?_, ?_⟩
  · intro h
    refine ⟨?_, ?_, ?_, ?_⟩
    · simp [csvNodeFields, h]
    · simp [nodeJsonInfo, h]
    · simp [listNodesTableRow, h]
    · rw [labels_nodeInfoTablePairs]
      simp [h]
  · intro h
    exact ⟨by simp [csvNodeFields, fmtCpuPct, h],
           by simp [listNodesTableRow, fmtCpuPct, h]⟩
  · intro h
    refine ⟨by simp [csvNodeFields, fmtCores, h],
            by simp [nodeJsonInfo, fmtCores, h],
            by simp [listNodesTableRow, fmtCores, h], ?_⟩
    rw [labels_nodeInfoTablePairs]
    simp [h]
  · intro h
    have hgb : gbPair n.mem n.maxmem = "N/A" := by
      rcases h with h | h
      · rw [h]; rfl
      · cases hm : n.mem <;> rw [h] <;> rfl
    have hlab : (n.mem.isSome && n.maxmem.isSome) = false := by
      rcases h with h | h <;> simp [h]
    refine ⟨by simp [csvNodeFields, hgb],
            by simp [nodeJsonInfo, hgb],
            by simp [listNodesTableRow, hgb], ?_⟩
    rw [labels_nodeInfoTablePairs, hlab]
    simp
  · intro h
    have hgb : gbPair n.disk n.maxdisk = "N/A" := by
      rcases h with h | h
      · rw [h]; rfl
      · cases hm : n.disk <;> rw [h] <;> rfl
    have hlab : (n.disk.isSome && n.maxdisk.isSome) = false := by
      rcases h with h | h <;> simp [h]
    refine ⟨by simp [csvNodeFields, hgb],
            by simp [nodeJsonInfo, hgb],
            by simp [listNodesTableRow, hgb], ?_⟩
    rw [labels_nodeInfoTablePairs, hlab]
    simp
  · intro h
    refine ⟨by simp [csvNodeFields, fmtUptimeDays, h],
            by simp [listNodesTableRow, fmtUptimeDays, h], ?_⟩
    rw [labels_nodeInfoTablePairs]
    simp [h]
  · intro h
    exact ⟨by simp [guestCsvFieldsShow, h],
           by simp [guestCsvFieldsList, h],
           by simp [guestJsonInfo, h],
           by simp [guestTableRowShow, h],
           by simp [guestTableRowList, h]⟩
  · intro h
    exact ⟨by simp [guestCsvFieldsShow, fmtCores, h],
           by simp [guestCsvFieldsList, fmtCores, h],
           by simp [guestJsonInfo, fmtCores, h],
           by simp [guestTableRowShow, fmtCores, h],
           by simp [guestTableRowList, fmtCores, h]⟩
  · intro h
    exact ⟨by simp [guestCsvFieldsShow, fmtGB1, h],
           by simp [guestCsvFieldsList, fmtGB1, h],
           by simp [guestJsonInfo, fmtGB1, h],
           by simp [guestTableRowShow, fmtGB1, h],
           by simp [guestTableRowList, fmtGB1, h]⟩
  · intro h
    exact ⟨by simp [guestCsvFieldsShow, fmtGB1, h],
           by simp [guestJsonInfo, fmtGB1, h]⟩

/-- Witness for C2 (amended) on a node and guest with every optional field
absent: each of the ten per-field implications applied with its hypothesis
discharged. -/
theorem c2_witness :
    (csvNodeFields exNodeBare)[1]? = some "N/A" ∧
    "IP" ∉ (nodeInfoTablePairs exNodeBare).map Prod.fst ∧
    (csvNodeFields exNodeBare)[3]? = some "N/A" ∧
    (nodeJsonInfo exNodeBare).cpu = "N/A" ∧
    (nodeJsonInfo exNodeBare).memory_gb = "N/A" ∧
    "HDD" ∉ (nodeInfoTablePairs exNodeBare).map Prod.fst ∧
    (csvNodeFields exNodeBare)[7]? = some "N/A" ∧
    (guestJsonInfo exGuestBare).ipv4 = "N/A" ∧
    (guestCsvFieldsShow exGuestBare)[2]? = some "N/A" ∧
    (guestJsonInfo exGuestBare).memory_gb = "N/A" ∧
    (guestJsonInfo exGuestBare).storage_gb = "N/A" := by
  have h := c2_na_rendering exNodeBare exGuestBare "pve1"
  exact ⟨(h.1 rfl).1, (h.1 rfl).2.2.2,
         (h.2.1 rfl).1, (h.2.2.1 rfl).2.1,
         (h.2.2.2.1 (Or.inl rfl)).2.1,
         (h.2.2.2.2.1 (Or.inl rfl)).2.2.2,
         (h.2.2.2.2.2.1 rfl).1,
         (h.2.2.2.2.2.2.1 rfl).2.2.1,
         (h.2.2.2.2.2.2.2.1 rfl).1,
         (h.2.2.2.2.2.2.2.2.1 rfl).2.2.1,
         (h.2.2.2.2.2.2.2.2.2 rfl).2⟩

/-- Claim C9 counterexample: in the `list_nodes` Table a node status that is
neither `"online"` nor `"offline"` is colored red (the negative color), not
the cautionary color, and in the `show_node_info` guests table a status that
is neither `"running"` nor `"stopped"` is also colored red: only the
`list_node_guests` table has a cautionary (yellow) branch. -/
theorem c9_counterexample :
    (listNodesTableRow exNodeUnknown)[1]? =
      some { text := "unknown", color := some Color.red } ∧
    (guestTableRowShow exGuestPaused)[3]? =
      some { text := "paused", color := some Color.red } ∧
    Color.red ≠ Color.yellow := by
  refine ⟨by decide, by decide, by decide⟩

/-- Claim C9, amended: the three-way semantic coloring (running green,
stopped red, anything else yellow) is implemented only by the
`list_node_guests` Table; the `list_nodes` Table and the `show_node_info`
node table color `"online"` green and every other status red, and the
`show_node_info` guests table colors `"running"` green and every other
status red. -/
theorem c9_status_coloring (s : String) :
    guestStatusCellList "running" = { text := "running", color := some Color.green } ∧
    guestStatusCellList "stopped" = { text := "stopped", color := some Color.red } ∧
    (s ≠ "running" → s ≠ "stopped" →
      guestStatusCellList s = { text := s, color := some Color.yellow }) ∧
    nodeStatusCell "online" = { text := "online", color := some Color.green } ∧
    (s ≠ "online" → nodeStatusCell s = { text := s, color := some Color.red }) ∧
    guestStatusCellShow "running" = { text := "running", color := some Color.green } ∧
    (s ≠ "running" → guestStatusCellShow s = { text := s, color := some Color.red }) := by
  refine ⟨rfl, rfl, ?_, rfl, ?_, rfl, ?_⟩
  · intro h1 h2
    simp [guestStatusCellList, h1, h2]
  · intro h
    simp [nodeStatusCell, h]
  · intro h
    simp [guestStatusCellShow, h]

/-- Witness for C9 (amended) at the status `"paused"` and `"unknown"`. -/
theorem c9_witness :
    guestStatusCellList "paused" = { text := "paused", color := some Color.yellow } ∧
    nodeStatusCell "unknown" = { text := "unknown", color := some Color.red } ∧
    guestStatusCellShow "paused" = { text := "paused", color := some Color.red } :=
  ⟨(c9_status_coloring "paused").2.2.1 (by decide) (by decide),
   (c9_status_coloring "unknown").2.2.2.2.1 (by decide),
   (c9_status_coloring "paused").2.2.2.2.2.2 (by decide)⟩

/-- Witness for C1 (amended) on concrete environments: the node-address
failure aborts `list_nodes`, and with all required calls succeeding and the
guest lookup total, `list_node_guests` succeeds. -/
theorem c1_witness :
    listNodesFetch envNodeIpFails = Except.error "Request failed: HTTP 500" ∧
    getGuestIp (Except.error "agent not running") = Except.ok none ∧
    (∃ out, listNodeGuestsFetch envAllOk "pve1" = Except.ok out) := by
  have h := c1_error_propagation
  refine ⟨h.1 envNodeIpFails exNodeBare [] "Request failed: HTTP 500" rfl rfl,
          h.2.2.2.1 "agent not running",
          h.2.2.2.2 envAllOk "pve1"
            [{ vmid := 100, name := "vm1", status := "running" }]
            [{ vmid := 101, name := "ct1", status := "running" }]
            rfl rfl (fun a b c => ⟨none, rfl⟩)⟩

end Pvenom
